import Mathlib

/-!
# Verification of the `local_semantic_db` façade

Shallow embedding of `src/local_semantic_db.py`, the Semantic Store Façade
over two external collaborators (an Embedder and a persistent Vector
Collection store).  The façade methods (`insert`, `batch_insert`, `query`,
`get`, `delete`, `update`) are translated from the source; the collaborators
are modelled from the spec's collaborator contract (§6) and the store's
documented upsert/get/delete/query behaviour, parameterised where the
claims quantify over them.

Python `ValueError`s raised by the façade are split, following the spec's
error taxonomy (§7), into `validation` (argument checks) and `notFound`
("No entry found with ID ..."); errors raised by the collaborators are
`collaborator`.  Message strings reproduce the source's messages with the
Python quote characters elided.
-/

deriving instance DecidableEq for Except

namespace LocalSemanticDB

/-- Scalar metadata value (spec §3: strings, numbers, booleans). -/
inductive Scalar
  | s (v : String)
  | i (v : Int)
  | b (v : Bool)
deriving DecidableEq

/-- A Python metadata dict, modelled as an association list.
Python truthiness: falsy iff empty. -/
abbrev Md := List (String × Scalar)

/-- Errors surfaced to the caller.  The façade raises `ValueError` in
Python; the spec's §7 taxonomy distinguishes validation errors from
not-found errors, and collaborator failures propagate unchanged. -/
inductive Err
  | validation (msg : String)
  | notFound (msg : String)
  | collaborator (msg : String)
deriving DecidableEq

/-- Provenance of the embedding stored with a record.  `given e` means the
façade passed the embedding `e` to `upsert`; `derived d` means the façade
passed no embedding, so the store derived one from the document `d` using
its own embedding function (the store's documented behaviour when
`embeddings` is omitted). -/
inductive StoredEmb
  | given (e : List Int)
  | derived (d : Option String)
deriving DecidableEq

/-- A record held by the Vector Collection store: document, metadata and
embedding, keyed by id (spec §3, §6). -/
structure Rec where
  doc : Option String
  md : Option Md
  emb : StoredEmb
deriving DecidableEq

/-- The active Collection's contents: an id-keyed association list with
replace-by-id upsert semantics (spec §6). -/
abbrev Store := List (String × Rec)

/-- An id value flowing through the façade: a Python `str`, or a
`uuid.UUID` object (what `uuid.uuid4()` returns when not wrapped in
`str`, source line 89), or a Python list reaching a single-id position. -/
inductive PyId
  | str (s : String)
  | uuidObj (n : Nat)
  | pylist (l : List (Option String))
deriving DecidableEq

/-- Façade state: the active Collection plus a counter indexing successive
draws from the process randomness source (models `uuid.uuid4()`:
successive draws are distinct). -/
structure DB where
  coll : Store
  ctr : Nat
deriving DecidableEq

/-- Modelled from the spec: `str(uuid.uuid4())` — a freshly generated,
universally unique string identifier; the `n`-th draw of the process. -/
def genUUID (n : Nat) : String := "uuid-" ++ toString n

/-- The Embedder collaborator (spec §6): text to fixed-length numeric
vector.  The vector entries are modelled as integers; nothing in the
façade inspects them. -/
structure Embedder where
  enc : String → List Int

/-- `embed_text`: pure delegation to the Embedder (source lines 30-34). -/
def embed_text (E : Embedder) (text : String) : List Int := E.enc text

/-- `embed_texts`: batch delegation (source lines 36-37).  Modelled from
the spec's collaborator contract (§6): one embedding per input text,
order-preserving. -/
def embed_texts (E : Embedder) (texts : List String) : List (List Int) :=
  texts.map E.enc

/-- Lookup by id in the store. -/
def storeGet? : Store → String → Option Rec
  | [], _ => Option.none
  | (j, r) :: rest, i => if j = i then some r else storeGet? rest i

/-- Replace-by-id insertion into the store. -/
def storeSet : Store → String → Rec → Store
  | [], i, r => [(i, r)]
  | (j, q) :: rest, i, r =>
      if j = i then (i, r) :: rest else (j, q) :: storeSet rest i r

/-- Removal by id; removing an absent id leaves the store unchanged. -/
def storeDel : Store → String → Store
  | [], _ => []
  | (j, q) :: rest, i =>
      if j = i then storeDel rest i else (j, q) :: storeDel rest i

/-- The store's id validation: ids must be Python `str` (the store raises
`Expected ID to be a str` otherwise). -/
def allStr? : List PyId → Option (List String)
  | [] => some []
  | .str s :: rest => (allStr? rest).map fun l => s :: l
  | _ => Option.none

/-- Embedding stored for one row: the one the façade gave, or one the
store derives from the document when none was given. -/
def mkEmb (e : Option (List Int)) (d : Option String) : StoredEmb :=
  match e with
  | some v => .given v
  | Option.none => .derived d

/-- Rows of an upsert call: parallel ids / embeddings / documents /
metadatas zipped into records. -/
def rows : List String → List (Option (List Int)) → List (Option String) →
    List (Option Md) → List (String × Rec)
  | i :: is, e :: es, d :: ds, m :: ms =>
      (i, ⟨d, m, mkEmb e d⟩) :: rows is es ds ms
  | _, _, _, _ => []

/-- Apply upsert rows left to right, each replacing by id. -/
def upsertRows : Store → List (String × Rec) → Store
  | c, [] => c
  | c, (i, r) :: rest => upsertRows (storeSet c i r) rest

/-- The store collaborator's `upsert(ids, embeddings?, documents,
metadatas?)` (spec §6): validates that every id is a `str`, then replaces
by id.  When `embeddings` is omitted the store derives each embedding from
the corresponding document; when `metadatas` is omitted every row gets no
metadata. -/
def collUpsert (c : Store) (ids : List PyId) (embs : Option (List (List Int)))
    (docs : List (Option String)) (mds : Option (List (Option Md))) :
    Except Err Store :=
  match allStr? ids with
  | Option.none => .error (.collaborator "Expected ID to be a str")
  | some sids =>
      let embL : List (Option (List Int)) :=
        match embs with
        | some es => es.map some
        | Option.none => List.replicate ids.length Option.none
      let mdL : List (Option Md) :=
        match mds with
        | some ms => ms
        | Option.none => List.replicate ids.length Option.none
      .ok (upsertRows c (rows sids embL docs mdL))

/-- The store collaborator's `get(ids)` response for a single id
(spec §6): parallel `documents`/`metadatas` lists, empty when the id has
no record. -/
structure GetResp where
  documents : List (Option String)
  metadatas : List (Option Md)
deriving DecidableEq

/-- `collection.get(ids=[i])`. -/
def collGet (c : Store) (i : String) : GetResp :=
  match storeGet? c i with
  | some r => ⟨[r.doc], [r.md]⟩
  | Option.none => ⟨[], []⟩

/-- Shape of the `text` argument of `insert` / the `texts` argument of
`batch_insert` in Python's dynamic typing: absent, a string, or a list. -/
inductive TextArg
  | none
  | str (s : String)
  | list (l : List String)
deriving DecidableEq

/-- Shape of the `metadata` argument: absent, a dict, or a list. -/
inductive MdArg
  | none
  | dict (m : Md)
  | mdlist (l : List (Option Md))
deriving DecidableEq

/-- Shape of the `text_id` argument: absent, a string, or a list whose
elements may themselves be absent. -/
inductive IdArg
  | none
  | str (s : String)
  | idlist (l : List (Option String))
deriving DecidableEq

/-- Python truthiness of the `text` argument (`not text` on a `None`, a
string, or a list). -/
def truthyText : TextArg → Bool
  | .none => false
  | .str s => s ≠ ""
  | .list l => l ≠ []

/-- `[metadata] if metadata else None`, first half: the metadata actually
sent to the store in the single-record paths.  `None` and the empty dict
are falsy, so nothing is sent; a list metadata is handled where it occurs. -/
def md1Of : MdArg → Option Md
  | .dict (x :: xs) => some (x :: xs)
  | _ => Option.none

/-- Same truthiness test for a `metadata` / `where` parameter typed as an
optional dict (`update`, `query`). -/
def mdTruthy : Option Md → Option Md
  | some (x :: xs) => some (x :: xs)
  | _ => Option.none

/-- What `insert` returns: a single id on the single-record path, the list
of ids when it dispatches to `batch_insert`. -/
inductive RetVal
  | one (i : PyId)
  | many (l : List PyId)
deriving DecidableEq

/-- Source lines 85-90: replace each absent slot of a caller-provided
`text_ids` list with `uuid.uuid4()` — a `uuid.UUID` object, NOT wrapped in
`str` — drawing from the randomness counter. -/
def fillIds (ctr : Nat) : List (Option String) → List PyId × Nat
  | [] => ([], ctr)
  | some s :: rest =>
      let p := fillIds ctr rest
      (PyId.str s :: p.1, p.2)
  | Option.none :: rest =>
      let p := fillIds (ctr + 1) rest
      (PyId.uuidObj ctr :: p.1, p.2)

/-- Tail of `batch_insert` after the ids are settled (source lines
92-110): embed all texts, default or length-check `metadatas`, then one
batched upsert. -/
def batchFinish (E : Embedder) (db : DB) (ts : List String)
    (metadatas : Option (List (Option Md))) (ids : List PyId) :
    Except Err (List PyId) × DB :=
  let embeddings := embed_texts E ts
  match metadatas with
  | Option.none =>
      match collUpsert db.coll ids (some embeddings) (ts.map some)
          (some (List.replicate ts.length Option.none)) with
      | .ok c => (.ok ids, { db with coll := c })
      | .error e => (.error e, db)
  | some ml =>
      if ml.length ≠ ts.length then
        (.error (.validation "The number of metadatas must match the number of texts."), db)
      else
        match collUpsert db.coll ids (some embeddings) (ts.map some) (some ml) with
        | .ok c => (.ok ids, { db with coll := c })
        | .error e => (.error e, db)

/-- `batch_insert(texts, metadatas, text_ids)` (source lines 69-110):
reject an absent / non-list / empty `texts`; generate ids when absent or
length-check and fill the provided ones; embed; length-check `metadatas`;
one batched upsert; return the ids used. -/
def batch_insert (E : Embedder) (db : DB) (texts : TextArg)
    (metadatas : Option (List (Option Md))) (text_ids : Option (List (Option String))) :
    Except Err (List PyId) × DB :=
  match texts with
  | .list (t :: ts) =>
      let allTexts := t :: ts
      match text_ids with
      | Option.none =>
          let ids := (List.range allTexts.length).map fun k =>
            PyId.str (genUUID (db.ctr + k))
          batchFinish E { db with ctr := db.ctr + allTexts.length } allTexts metadatas ids
      | some il =>
          if il.length ≠ allTexts.length then
            (.error (.validation "The number of text_ids must match the number of texts."), db)
          else
            let p := fillIds db.ctr il
            batchFinish E { db with ctr := p.2 } allTexts metadatas p.1
  | _ => (.error (.validation "The texts parameter must be a non-empty list of strings."), db)

/-- Source lines 50-51: the id used by the single-record path of
`insert` — a fresh uuid string when `text_id` is absent, otherwise the
caller's value as-is. -/
def singleId (db : DB) : IdArg → PyId
  | .none => .str (genUUID db.ctr)
  | .str s => .str s
  | .idlist l => .pylist l

/-- The state after the uuid draw of `insert`'s single-record path (the
draw happens only when `text_id` is absent, and before the text check). -/
def singleDB (db : DB) : IdArg → DB
  | .none => { db with ctr := db.ctr + 1 }
  | _ => db

/-- The single-record path of `insert` (source lines 53-66): reject falsy
`text`, embed, and upsert one record.  Argument combinations that hand a
list to a single-value slot of a collaborator are rejected by that
collaborator. -/
def insertSingle (E : Embedder) (db1 : DB) (t : TextArg) (m : MdArg)
    (tid : PyId) : Except Err RetVal × DB :=
  match t with
  | .none => (.error (.validation "The text content cannot be None."), db1)
  | .str s =>
      if s = "" then (.error (.validation "The text content cannot be None."), db1)
      else
        match m with
        | .mdlist (_ :: _) =>
            (.error (.collaborator "Expected metadata to be a dict"), db1)
        | _ =>
            match collUpsert db1.coll [tid] (some [embed_text E s]) [some s]
                ((md1Of m).map fun x => [some x]) with
            | .ok c => (.ok (.one tid), { db1 with coll := c })
            | .error e => (.error e, db1)
  | .list [] => (.error (.validation "The text content cannot be None."), db1)
  | .list (_ :: _) =>
      (.error (.collaborator "Expected document to be a str"), db1)

/-- `insert(text, metadata, text_id)` (source lines 40-66): dispatch to
`batch_insert` when all three arguments are lists; otherwise generate a
uuid when `text_id` is absent and run the single-record path. -/
def insert (E : Embedder) (db : DB) (text : TextArg) (metadata : MdArg)
    (text_id : IdArg) : Except Err RetVal × DB :=
  match text, metadata, text_id with
  | .list ts, .mdlist ms, .idlist il =>
      let p := batch_insert E db (.list ts) (some ms) (some il)
      (p.1.map RetVal.many, p.2)
  | t, m, i => insertSingle E (singleDB db i) t m (singleId db i)

/-- A record entry as returned by `get` (source lines 167-171). -/
structure Entry where
  id : String
  text : Option String
  metadata : Option Md
deriving DecidableEq

/-- `get(text_id)` (source lines 157-172): fetch by id; raise when the
store returns no documents for the id. -/
def get (db : DB) (text_id : String) : Except Err Entry :=
  let results := collGet db.coll text_id
  if results.documents = [] then
    .error (.notFound "No entry found with ID")
  else
    .ok ⟨text_id, results.documents.getD 0 Option.none,
      if results.metadatas = [] then Option.none
      else results.metadatas.getD 0 Option.none⟩

/-- `delete(text_id)` (source lines 175-181): delete by id; no existence
check, deleting an absent id is a no-op. -/
def delete (db : DB) (text_id : String) : Except Err Unit × DB :=
  (.ok (), { db with coll := storeDel db.coll text_id })

/-- `update(text_id, text, metadata)` (source lines 184-200): reject an
absent id; read-before-write existence check; then upsert `{id, text,
metadata}` passing NO embedding (the store derives one from the new
document itself).  The Embedder argument is never used. -/
def update (E : Embedder) (db : DB) (text_id : Option String)
    (text : Option String) (metadata : Option Md) : Except Err Unit × DB :=
  match text_id with
  | Option.none =>
      (.error (.validation "Must use valid text_id, text_id should not be None"), db)
  | some tid =>
      let results := collGet db.coll tid
      if results.documents = [] then
        (.error (.notFound "No entry found with ID"), db)
      else
        match collUpsert db.coll [PyId.str tid] Option.none [text]
            ((mdTruthy metadata).map fun x => [some x]) with
        | .ok c => (.ok (), { db with coll := c })
        | .error e => (.error e, db)

/-- One flattened query match (source lines 148-153). -/
structure QueryItem where
  id : String
  text : Option String
  metadata : Option Md
  distance : Int
deriving DecidableEq

/-- The store collaborator's `query` response (spec §6): nested ordered
sequences, outer index one per query embedding (always length 1 here);
`metadatas` may be absent entirely.  The distance metric's values are
modelled as integers; the façade only copies them. -/
structure QueryResp where
  ids : List (List String)
  documents : List (List (Option String))
  metadatas : Option (List (List (Option Md)))
  distances : List (List Int)
deriving DecidableEq

/-- Result flattening (source lines 146-153): one item per element of
`ids[0]`, indexing the parallel arrays; `metadata` falls back to absent
when the response's `metadatas` is absent or falsy. -/
def flattenQuery (results : QueryResp) : List QueryItem :=
  (List.range (results.ids.getD 0 []).length).map fun i =>
    ⟨(results.ids.getD 0 []).getD i ""
    , (results.documents.getD 0 []).getD i Option.none
    , match results.metadatas with
      | some ml => if ml = [] then Option.none else (ml.getD 0 []).getD i Option.none
      | Option.none => Option.none
    , (results.distances.getD 0 []).getD i 0⟩

/-- `query(query_text, top_k, where)` (source lines 113-154): embed the
query text, pass `where` only when truthy, and flatten the store's
response.  The store's nearest-neighbour search itself is the
collaborator's: it is taken as a parameter giving the response to a query
embedding, a result count and an optional filter. -/
def query (E : Embedder) (storeQuery : List Int → Nat → Option Md → QueryResp)
    (query_text : String) (top_k : Nat) (w : Option Md) : List QueryItem :=
  flattenQuery (storeQuery (embed_text E query_text) top_k (mdTruthy w))

/-- Is the façade's result a `validation` error? -/
def isValidationErr {α : Type} : Except Err α → Bool
  | .error (.validation _) => true
  | _ => false

/-- `texts` passes `batch_insert`'s shape check (a non-empty list)? -/
def validTexts : TextArg → Bool
  | .list (_ :: _) => true
  | _ => false

/-- Is the `metadata` argument of `insert` a list? -/
def MdArg.isListArg : MdArg → Bool
  | .mdlist _ => true
  | _ => false

/-- A concrete Embedder instance used by the concrete-input theorems. -/
def E0 : Embedder := ⟨fun t => [(t.length : Int)]⟩

/-- The empty façade state. -/
def db0 : DB := ⟨[], 0⟩

/-! ## General lemmas about the store and list indexing -/

theorem storeGet?_storeSet_self (c : Store) (i : String) (r : Rec) :
    storeGet? (storeSet c i r) i = some r := by
  induction c with
  | nil => simp [storeSet, storeGet?]
  | cons p rest ih =>
      by_cases h : p.1 = i
      · simp [storeSet, storeGet?, h]
      · simp [storeSet, storeGet?, h, ih]

theorem storeGet?_storeDel_self (c : Store) (i : String) :
    storeGet? (storeDel c i) i = Option.none := by
  induction c with
  | nil => simp [storeDel, storeGet?]
  | cons p rest ih =>
      by_cases h : p.1 = i
      · simp [storeDel, h, ih]
      · simp [storeDel, storeGet?, h, ih]

theorem range_map_getD {α : Type} (l : List α) (d : α) :
    (List.range l.length).map (fun i => l.getD i d) = l := by
  induction l with
  | nil => simp
  | cons a t ih =>
      have h : ((fun i => (a :: t).getD i d) ∘ Nat.succ) = fun i => t.getD i d := by
        funext i
        simp [List.getD_cons_succ]
      simp only [List.length_cons, List.range_succ_eq_map, List.map_cons,
        List.map_map, List.getD_cons_zero, h, ih]

theorem range_map_const {α : Type} (n : Nat) (c : α) :
    (List.range n).map (fun _ => c) = List.replicate n c := by
  induction n with
  | zero => simp
  | succ k ih =>
      simp only [List.range_succ_eq_map, List.map_cons, List.map_map,
        List.replicate_succ]
      exact congrArg (List.cons c) ih

/-- A record found in the store is returned by `get` as an entry with its
document and metadata. -/
theorem get_found (db : DB) (i : String) (r : Rec)
    (h : storeGet? db.coll i = some r) : get db i = .ok ⟨i, r.doc, r.md⟩ := by
  simp [get, collGet, h]

/-- What the single-record path of `insert` does for a string text, a
non-list metadata and a caller-supplied string id. -/
theorem insert_str_eq (E : Embedder) (db : DB) (s : String) (m : MdArg) (sid : String)
    (hs : s ≠ "") (hm : m.isListArg = false) :
    insert E db (.str s) m (.str sid)
      = (.ok (.one (.str sid)),
         { db with coll := storeSet db.coll sid ⟨some s, md1Of m, .given (E.enc s)⟩ }) := by
  match m with
  | .mdlist _ => simp [MdArg.isListArg] at hm
  | .none =>
      simp [insert, insertSingle, singleDB, singleId, hs, embed_text, collUpsert,
        allStr?, md1Of, rows, mkEmb, upsertRows]
  | .dict [] =>
      simp [insert, insertSingle, singleDB, singleId, hs, embed_text, collUpsert,
        allStr?, md1Of, rows, mkEmb, upsertRows]
  | .dict (x :: xs) =>
      simp [insert, insertSingle, singleDB, singleId, hs, embed_text, collUpsert,
        allStr?, md1Of, rows, mkEmb, upsertRows]

/-- What the single-record path of `insert` does when `text_id` is
absent: a fresh uuid string is drawn and used as the id. -/
theorem insert_str_none_eq (E : Embedder) (db : DB) (s : String) (m : MdArg)
    (hs : s ≠ "") (hm : m.isListArg = false) :
    insert E db (.str s) m .none
      = (.ok (.one (.str (genUUID db.ctr))),
         ⟨storeSet db.coll (genUUID db.ctr) ⟨some s, md1Of m, .given (E.enc s)⟩,
          db.ctr + 1⟩) := by
  match m with
  | .mdlist _ => simp [MdArg.isListArg] at hm
  | .none =>
      simp [insert, insertSingle, singleDB, singleId, hs, embed_text, collUpsert,
        allStr?, md1Of, rows, mkEmb, upsertRows]
  | .dict [] =>
      simp [insert, insertSingle, singleDB, singleId, hs, embed_text, collUpsert,
        allStr?, md1Of, rows, mkEmb, upsertRows]
  | .dict (x :: xs) =>
      simp [insert, insertSingle, singleDB, singleId, hs, embed_text, collUpsert,
        allStr?, md1Of, rows, mkEmb, upsertRows]

/-- What `update` does on an existing id: an upsert of the new text and
metadata with NO embedding passed, so the stored embedding is derived by
the store from the new text. -/
theorem update_some_eq (E : Embedder) (db : DB) (tid : String) (t : Option String)
    (m : Option Md) (r0 : Rec) (h : storeGet? db.coll tid = some r0) :
    update E db (some tid) t m
      = (.ok (), { db with coll := storeSet db.coll tid ⟨t, mdTruthy m, .derived t⟩ }) := by
  match m with
  | Option.none =>
      simp [update, collGet, h, collUpsert, allStr?, mdTruthy, rows, mkEmb, upsertRows]
  | some [] =>
      simp [update, collGet, h, collUpsert, allStr?, mdTruthy, rows, mkEmb, upsertRows]
  | some (x :: xs) =>
      simp [update, collGet, h, collUpsert, allStr?, mdTruthy, rows, mkEmb, upsertRows]

/-! ## Claims -/

/-- C1 counterexample: the claim as stated is false.  `update` on an
existing id with a new non-empty text succeeds, but the stored embedding
is NOT recomputed via the Embedder — the façade passes no embedding to the
upsert, the store derives one itself.  Concretely: after inserting id `a`
with text `x` and updating it to text `y`, the stored embedding is the
store-derived one, different from the Embedder's `embed_text E0 "y"`. -/
theorem claimC1_counterexample :
    (update E0 (insert E0 db0 (.str "x") .none (.str "a")).2
        (some "a") (some "y") Option.none).1 = .ok () ∧
    storeGet? (update E0 (insert E0 db0 (.str "x") .none (.str "a")).2
        (some "a") (some "y") Option.none).2.coll "a"
      = some ⟨some "y", Option.none, .derived (some "y")⟩ ∧
    StoredEmb.derived (some "y") ≠ StoredEmb.given (embed_text E0 "y") := by
  decide

/-- C1 amended: on every insert the embedding is computed by the Embedder
and upserted with the record; on every update of an existing id the façade
upserts `{id, text, metadata}` with no embedding, so the stored embedding
is derived by the store from the record's new text, not recomputed via the
Embedder. -/
theorem claimC1_amended :
    (∀ (E : Embedder) (db : DB) (s : String) (m : MdArg) (sid : String),
      s ≠ "" → m.isListArg = false →
      (insert E db (.str s) m (.str sid)).1 = .ok (.one (.str sid)) ∧
      storeGet? (insert E db (.str s) m (.str sid)).2.coll sid
        = some ⟨some s, md1Of m, .given (embed_text E s)⟩) ∧
    (∀ (E : Embedder) (db : DB) (tid : String) (t : Option String)
       (m : Option Md) (r0 : Rec),
      storeGet? db.coll tid = some r0 →
      (update E db (some tid) t m).1 = .ok () ∧
      storeGet? (update E db (some tid) t m).2.coll tid
        = some ⟨t, mdTruthy m, .derived t⟩) := by
  constructor
  · intro E db s m sid hs hm
    rw [insert_str_eq E db s m sid hs hm]
    exact ⟨rfl, storeGet?_storeSet_self _ _ _⟩
  · intro E db tid t m r0 h
    rw [update_some_eq E db tid t m r0 h]
    exact ⟨rfl, storeGet?_storeSet_self _ _ _⟩

/-- C1 witness: the amended theorem at concrete inputs. -/
theorem claimC1_witness :
    ((insert E0 db0 (.str "x") (.dict [("k", .s "v")]) (.str "a")).1
        = .ok (.one (.str "a")) ∧
     storeGet? (insert E0 db0 (.str "x") (.dict [("k", .s "v")]) (.str "a")).2.coll "a"
        = some ⟨some "x", some [("k", .s "v")], .given [1]⟩) ∧
    ((update E0 (insert E0 db0 (.str "x") .none (.str "a")).2
        (some "a") (some "y") (some [])).1 = .ok () ∧
     storeGet? (update E0 (insert E0 db0 (.str "x") .none (.str "a")).2
        (some "a") (some "y") (some [])).2.coll "a"
        = some ⟨some "y", Option.none, .derived (some "y")⟩) :=
  ⟨claimC1_amended.1 E0 db0 "x" (.dict [("k", .s "v")]) "a" (by decide) rfl,
   claimC1_amended.2 E0 (insert E0 db0 (.str "x") .none (.str "a")).2 "a"
     (some "y") (some []) ⟨some "x", Option.none, .given [1]⟩ (by decide)⟩

/-- C3 counterexample: the claim as stated is false for a supplied but
empty metadata mapping — the façade passes no metadata to the store, so a
subsequent `get` yields metadata absent, not the supplied empty mapping. -/
theorem claimC3_counterexample :
    (insert E0 db0 (.str "hello") (.dict []) .none).1 = .ok (.one (.str "uuid-0")) ∧
    get (insert E0 db0 (.str "hello") (.dict []) .none).2 "uuid-0"
      = .ok ⟨"uuid-0", some "hello", Option.none⟩ ∧
    (Option.none : Option Md) ≠ some [] := by
  decide

/-- C3 amended: for every valid non-empty text, insert returns the
effective id used (the caller's id, or the next fresh uuid string when
absent), and a subsequent get on that id yields a record whose text equals
the input and whose metadata equals what was supplied when a non-empty
mapping was supplied, and is absent when metadata was absent or an empty
mapping. -/
theorem claimC3_amended (E : Embedder) (db : DB) (s : String) (m : MdArg)
    (hs : s ≠ "") (hm : m.isListArg = false) :
    ((insert E db (.str s) m .none).1 = .ok (.one (.str (genUUID db.ctr))) ∧
     get (insert E db (.str s) m .none).2 (genUUID db.ctr)
       = .ok ⟨genUUID db.ctr, some s, md1Of m⟩) ∧
    (∀ sid : String,
     (insert E db (.str s) m (.str sid)).1 = .ok (.one (.str sid)) ∧
     get (insert E db (.str s) m (.str sid)).2 sid = .ok ⟨sid, some s, md1Of m⟩) := by
  constructor
  · rw [insert_str_none_eq E db s m hs hm]
    exact ⟨rfl,
      get_found ⟨storeSet db.coll (genUUID db.ctr) ⟨some s, md1Of m, .given (E.enc s)⟩,
          db.ctr + 1⟩ (genUUID db.ctr) ⟨some s, md1Of m, .given (E.enc s)⟩
        (storeGet?_storeSet_self _ _ _)⟩
  · intro sid
    rw [insert_str_eq E db s m sid hs hm]
    exact ⟨rfl,
      get_found ⟨storeSet db.coll sid ⟨some s, md1Of m, .given (E.enc s)⟩, db.ctr⟩
        sid ⟨some s, md1Of m, .given (E.enc s)⟩ (storeGet?_storeSet_self _ _ _)⟩

/-- C3 witness: the amended theorem at concrete inputs, with a generated
id and with a caller-supplied id. -/
theorem claimC3_witness :
    ((insert E0 db0 (.str "hi") (.dict [("n", .s "A")]) .none).1
        = .ok (.one (.str "uuid-0")) ∧
     get (insert E0 db0 (.str "hi") (.dict [("n", .s "A")]) .none).2 "uuid-0"
        = .ok ⟨"uuid-0", some "hi", some [("n", .s "A")]⟩) ∧
    ((insert E0 db0 (.str "hi") (.dict [("n", .s "A")]) (.str "a")).1
        = .ok (.one (.str "a")) ∧
     get (insert E0 db0 (.str "hi") (.dict [("n", .s "A")]) (.str "a")).2 "a"
        = .ok ⟨"a", some "hi", some [("n", .s "A")]⟩) :=
  ⟨(claimC3_amended E0 db0 "hi" (.dict [("n", .s "A")]) (by decide) rfl).1,
   (claimC3_amended E0 db0 "hi" (.dict [("n", .s "A")]) (by decide) rfl).2 "a"⟩

/-- C4: when text, metadata and id are all given as (equal-length) lists,
`insert` is exactly the dispatch to `batch_insert` on those arguments —
same resulting state, and the same ids returned (wrapped as `insert`'s
batch-shaped return value). -/
theorem claimC4 (E : Embedder) (db : DB) (ts : List String)
    (ms : List (Option Md)) (il : List (Option String))
    (h1 : ms.length = ts.length) (h2 : il.length = ts.length) :
    insert E db (.list ts) (.mdlist ms) (.idlist il)
      = ((batch_insert E db (.list ts) (some ms) (some il)).1.map RetVal.many,
         (batch_insert E db (.list ts) (some ms) (some il)).2) := rfl

/-- C4 witness: the dispatch equivalence at a concrete call. -/
theorem claimC4_witness :
    insert E0 db0 (.list ["a", "b"]) (.mdlist [Option.none, Option.none])
        (.idlist [some "i", some "j"])
      = ((batch_insert E0 db0 (.list ["a", "b"]) (some [Option.none, Option.none])
            (some [some "i", some "j"])).1.map RetVal.many,
         (batch_insert E0 db0 (.list ["a", "b"]) (some [Option.none, Option.none])
            (some [some "i", some "j"])).2) :=
  claimC4 E0 db0 ["a", "b"] [Option.none, Option.none] [some "i", some "j"] rfl rfl

/-- C5 evaluation at the failing input (code bug at source line 89): a
partially-provided ids list has its absent slot filled with a bare
`uuid.uuid4()` value — a UUID object, not a string (`str(...)` is applied
on lines 51 and 80 but omitted on line 89) — so the store's id validation
rejects the whole upsert: `batch_insert(texts=[a, b], text_ids=[x, None])`
fails with the store's error and inserts nothing, instead of returning a
fresh string id for the absent slot. -/
theorem claimC5_bug_eval :
    fillIds db0.ctr [some "x", Option.none] = ([PyId.str "x", PyId.uuidObj 0], 1) ∧
    (batch_insert E0 db0 (.list ["a", "b"]) Option.none (some [some "x", Option.none])).1
      = .error (.collaborator "Expected ID to be a str") ∧
    (batch_insert E0 db0 (.list ["a", "b"]) Option.none (some [some "x", Option.none])).2.coll
      = db0.coll := by
  decide

/-- C8: for an id with no record, `get` and `update` fail with the
not-found error (update leaving the state untouched), while `delete`
succeeds as a no-op and a subsequent `get` still fails. -/
theorem claimC8 (E : Embedder) (db : DB) (tid : String) (t : Option String)
    (m : Option Md) (h : storeGet? db.coll tid = Option.none) :
    get db tid = .error (.notFound "No entry found with ID") ∧
    update E db (some tid) t m = (.error (.notFound "No entry found with ID"), db) ∧
    (delete db tid).1 = .ok () ∧
    get (delete db tid).2 tid = .error (.notFound "No entry found with ID") := by
  refine ⟨?_, ?_, rfl, ?_⟩
  · simp [get, collGet, h]
  · simp [update, collGet, h]
  · simp [get, delete, collGet, storeGet?_storeDel_self]

/-- C8 witness: the theorem at a concrete absent id. -/
theorem claimC8_witness :
    get db0 "z" = .error (.notFound "No entry found with ID") ∧
    update E0 db0 (some "z") Option.none Option.none
      = (.error (.notFound "No entry found with ID"), db0) ∧
    (delete db0 "z").1 = .ok () ∧
    get (delete db0 "z").2 "z" = .error (.notFound "No entry found with ID") :=
  claimC8 E0 db0 "z" Option.none Option.none rfl

/-- C9: `update` with `text` absent on an existing id proceeds without
error and overwrites the stored text with an absent value — no
partial-field merge; the prior text is lost. -/
theorem claimC9 (E : Embedder) (db : DB) (tid : String) (m : Option Md) (r0 : Rec)
    (h : storeGet? db.coll tid = some r0) :
    (update E db (some tid) Option.none m).1 = .ok () ∧
    storeGet? (update E db (some tid) Option.none m).2.coll tid
      = some ⟨Option.none, mdTruthy m, .derived Option.none⟩ := by
  rw [update_some_eq E db tid Option.none m r0 h]
  exact ⟨rfl, storeGet?_storeSet_self _ _ _⟩

/-- C9 witness: updating an existing record with no text erases its
stored text. -/
theorem claimC9_witness :
    (update E0 (insert E0 db0 (.str "x") (.dict [("k", .s "v")]) (.str "a")).2
        (some "a") Option.none Option.none).1 = .ok () ∧
    storeGet? (update E0 (insert E0 db0 (.str "x") (.dict [("k", .s "v")]) (.str "a")).2
        (some "a") Option.none Option.none).2.coll "a"
      = some ⟨Option.none, Option.none, .derived Option.none⟩ :=
  claimC9 E0 (insert E0 db0 (.str "x") (.dict [("k", .s "v")]) (.str "a")).2 "a"
    Option.none ⟨some "x", some [("k", .s "v")], .given [1]⟩ (by decide)

/-- C10: supplying a falsy metadata (the empty mapping) to `insert` or
`update` is indistinguishable from supplying none — the façade passes no
metadata to the store — and a subsequent `get` returns metadata absent
rather than the supplied empty mapping. -/
theorem claimC10 :
    (∀ (E : Embedder) (db : DB) (t : TextArg) (i : IdArg),
      insert E db t (.dict []) i = insert E db t .none i) ∧
    (∀ (E : Embedder) (db : DB) (tid : Option String) (t : Option String),
      update E db tid t (some []) = update E db tid t Option.none) ∧
    (∀ (E : Embedder) (db : DB) (s : String) (sid : String), s ≠ "" →
      get (insert E db (.str s) (.dict []) (.str sid)).2 sid
        = .ok ⟨sid, some s, Option.none⟩) := by
  refine ⟨?_, ?_, ?_⟩
  · intro E db t i
    cases t <;> rfl
  · intro E db tid t
    rfl
  · intro E db s sid hs
    rw [insert_str_eq E db s (.dict []) sid hs rfl]
    exact get_found ⟨storeSet db.coll sid ⟨some s, Option.none, .given (E.enc s)⟩, db.ctr⟩
      sid ⟨some s, Option.none, .given (E.enc s)⟩ (storeGet?_storeSet_self _ _ _)

/-- C2 counterexample: the claim as stated is false — a collection state
containing a record whose text is empty IS reachable.  `batch_insert`
validates only that `texts` is a non-empty list, not the individual
texts, so inserting the list holding one empty string succeeds and stores
a record with empty text.  (`update` likewise performs no text check.) -/
theorem claimC2_counterexample :
    (batch_insert E0 db0 (.list [""]) Option.none Option.none).1
      = .ok [PyId.str "uuid-0"] ∧
    storeGet? (batch_insert E0 db0 (.list [""]) Option.none Option.none).2.coll "uuid-0"
      = some ⟨some "", Option.none, .given (embed_text E0 "")⟩ := by
  decide

/-- C2 amended: `insert` rejects an absent, empty or empty-list `text`
with a validation error before any store call (the collection is
unchanged), and `batch_insert` likewise rejects an absent, empty or
non-list `texts` argument; but `batch_insert` does not inspect individual
texts and `update` does not validate text at all, so empty-text records
remain reachable through those paths. -/
theorem claimC2_amended :
    (∀ (E : Embedder) (db : DB) (t : TextArg) (m : MdArg) (i : IdArg),
      truthyText t = false →
      isValidationErr (insert E db t m i).1 = true ∧
      (insert E db t m i).2.coll = db.coll) ∧
    (∀ (E : Embedder) (db : DB) (t : TextArg) (mds : Option (List (Option Md)))
       (ids : Option (List (Option String))),
      truthyText t = false →
      isValidationErr (batch_insert E db t mds ids).1 = true ∧
      (batch_insert E db t mds ids).2.coll = db.coll) := by
  constructor
  · intro E db t m i ht
    cases t with
    | none => cases i <;> exact ⟨rfl, rfl⟩
    | str s =>
        have hs : s = "" := by simpa [truthyText] using ht
        subst hs
        cases i <;> exact ⟨rfl, rfl⟩
    | list l =>
        have hl : l = [] := by simpa [truthyText] using ht
        subst hl
        cases m <;> cases i <;> exact ⟨rfl, rfl⟩
  · intro E db t mds ids ht
    cases t with
    | none => exact ⟨rfl, rfl⟩
    | str s => exact ⟨rfl, rfl⟩
    | list l =>
        have hl : l = [] := by simpa [truthyText] using ht
        subst hl
        exact ⟨rfl, rfl⟩

/-- C2 witness: the amended theorem at concrete falsy texts. -/
theorem claimC2_witness :
    (isValidationErr (insert E0 db0 (.str "") .none .none).1 = true ∧
     (insert E0 db0 (.str "") .none .none).2.coll = db0.coll) ∧
    (isValidationErr (batch_insert E0 db0 .none Option.none Option.none).1 = true ∧
     (batch_insert E0 db0 .none Option.none Option.none).2.coll = db0.coll) :=
  ⟨claimC2_amended.1 E0 db0 (.str "") .none .none (by decide),
   claimC2_amended.2 E0 db0 .none Option.none Option.none (by decide)⟩

/-- C6: `batch_insert` fails with a validation error — raised before any
store call, leaving the collection unchanged — when `texts` is absent,
not a list, or empty; when a provided ids list has a different length
than `texts`; and when a provided metadatas list has a different length
than `texts`. -/
theorem claimC6 :
    (∀ (E : Embedder) (db : DB) (t : TextArg) (mds : Option (List (Option Md)))
       (ids : Option (List (Option String))),
      validTexts t = false →
      batch_insert E db t mds ids
        = (.error (.validation "The texts parameter must be a non-empty list of strings."), db)) ∧
    (∀ (E : Embedder) (db : DB) (ts : List String) (mds : Option (List (Option Md)))
       (il : List (Option String)),
      ts ≠ [] → il.length ≠ ts.length →
      batch_insert E db (.list ts) mds (some il)
        = (.error (.validation "The number of text_ids must match the number of texts."), db)) ∧
    (∀ (E : Embedder) (db : DB) (ts : List String) (ml : List (Option Md))
       (ids : Option (List (Option String))),
      ts ≠ [] → ml.length ≠ ts.length →
      isValidationErr (batch_insert E db (.list ts) (some ml) ids).1 = true ∧
      (batch_insert E db (.list ts) (some ml) ids).2.coll = db.coll) := by
  refine ⟨?_, ?_, ?_⟩
  · intro E db t mds ids hv
    cases t with
    | none => rfl
    | str s => rfl
    | list l =>
        cases l with
        | nil => rfl
        | cons a l => simp [validTexts] at hv
  · intro E db ts mds il hne hlen
    match ts with
    | [] => exact absurd rfl hne
    | t :: ts' =>
        have hlen' : il.length ≠ ts'.length + 1 := by simpa using hlen
        simp [batch_insert, hlen']
  · intro E db ts ml ids hne hlen
    match ts with
    | [] => exact absurd rfl hne
    | t :: ts' =>
        have hml : ml.length ≠ ts'.length + 1 := by simpa using hlen
        cases ids with
        | none =>
            refine ⟨?_, ?_⟩ <;>
              simp [batch_insert, batchFinish, hml, isValidationErr]
        | some il =>
            by_cases hil : il.length = ts'.length + 1
            · refine ⟨?_, ?_⟩ <;>
                simp [batch_insert, batchFinish, hil, hml, isValidationErr]
            · refine ⟨?_, ?_⟩ <;>
                simp [batch_insert, batchFinish, hil, isValidationErr]

/-- C6 witness: the three validation failures at concrete inputs. -/
theorem claimC6_witness :
    batch_insert E0 db0 (.str "x") Option.none Option.none
      = (.error (.validation "The texts parameter must be a non-empty list of strings."), db0) ∧
    batch_insert E0 db0 (.list ["a"]) Option.none (some [])
      = (.error (.validation "The number of text_ids must match the number of texts."), db0) ∧
    (isValidationErr (batch_insert E0 db0 (.list ["a"]) (some []) Option.none).1 = true ∧
     (batch_insert E0 db0 (.list ["a"]) (some []) Option.none).2.coll = db0.coll) :=
  ⟨claimC6.1 E0 db0 (.str "x") Option.none Option.none rfl,
   claimC6.2.1 E0 db0 ["a"] Option.none [] (by decide) (by decide),
   claimC6.2.2 E0 db0 ["a"] [] Option.none (by decide) (by decide)⟩

/-- C7 counterexample: the claim's metadata clause is false as an
"exactly when".  Here the store DOES return a metadata array for the
query, yet the flattened item's metadata is absent, because the per-match
entry inside the array is itself absent. -/
theorem claimC7_counterexample :
    query E0 (fun _ _ _ => ⟨[["a"]], [[some "t"]], some [[Option.none]], [[0]]⟩)
        "q" 5 Option.none
      = [⟨"a", some "t", Option.none, 0⟩] ∧
    (some [[(Option.none : Option Md)]] : Option (List (List (Option Md))))
      ≠ Option.none := by
  decide

/-- Evaluation of the flattening on a well-shaped single-query response:
one item per match, fields copied positionally from the parallel arrays,
metadata taken from the per-match entry of the metadata array when one
was returned. -/
theorem flattenQuery_eq (ids0 : List String) (ds0 : List (Option String))
    (mm : Option (List (Option Md))) (dist0 : List Int) :
    flattenQuery ⟨[ids0], [ds0], mm.map (fun l => [l]), [dist0]⟩
      = (List.range ids0.length).map fun i =>
          ⟨ids0.getD i "", ds0.getD i Option.none,
           (mm.getD []).getD i Option.none, dist0.getD i 0⟩ := by
  cases mm with
  | none => rfl
  | some l => rfl

/-- C7 amended: for a store response that honours the collaborator
contract (parallel arrays, at most `top_k` matches), `query` returns one
item per match, in the store's order: the ids, texts and distances are
the store's arrays unchanged (so the store's ascending-distance ordering
is inherited), the length is at most `top_k`, and an item's metadata is
absent when the store returned no metadata array — and also when the
per-match entry inside a returned array is itself absent; otherwise it
equals that entry. -/
theorem claimC7_amended (E : Embedder) (sq : List Int → Nat → Option Md → QueryResp)
    (qt : String) (k : Nat) (w : Option Md) (ids0 : List String)
    (ds0 : List (Option String)) (mm : Option (List (Option Md))) (dist0 : List Int)
    (hr : sq (embed_text E qt) k (mdTruthy w)
      = ⟨[ids0], [ds0], mm.map (fun l => [l]), [dist0]⟩)
    (hd : ds0.length = ids0.length) (hdist : dist0.length = ids0.length)
    (hm : ∀ l, mm = some l → l.length = ids0.length)
    (hk : ids0.length ≤ k) :
    (query E sq qt k w).length = ids0.length ∧
    (query E sq qt k w).length ≤ k ∧
    (query E sq qt k w).map (fun x => x.id) = ids0 ∧
    (query E sq qt k w).map (fun x => x.text) = ds0 ∧
    (query E sq qt k w).map (fun x => x.distance) = dist0 ∧
    (query E sq qt k w).map (fun x => x.metadata)
      = mm.getD (List.replicate ids0.length Option.none) := by
  have hq : query E sq qt k w
      = (List.range ids0.length).map fun i =>
          (⟨ids0.getD i "", ds0.getD i Option.none,
            (mm.getD []).getD i Option.none, dist0.getD i 0⟩ : QueryItem) := by
    simp only [query]
    rw [hr]
    exact flattenQuery_eq ids0 ds0 mm dist0
  refine ⟨?_, ?_, ?_, ?_, ?_, ?_⟩
  · rw [hq]; simp
  · rw [hq]; simpa using hk
  · rw [hq, List.map_map]
    exact range_map_getD ids0 ""
  · rw [hq, List.map_map, show ids0.length = ds0.length from hd.symm]
    exact range_map_getD ds0 Option.none
  · rw [hq, List.map_map, show ids0.length = dist0.length from hdist.symm]
    exact range_map_getD dist0 0
  · cases mm with
    | none =>
        rw [hq, List.map_map]
        exact range_map_const ids0.length Option.none
    | some l =>
        have hl : l.length = ids0.length := hm l rfl
        rw [hq, List.map_map, show ids0.length = l.length from hl.symm]
        exact range_map_getD l Option.none

/-- C7 witness: the amended theorem at a concrete store response of two
matches with a metadata array present. -/
theorem claimC7_witness :
    (query E0 (fun _ _ _ =>
        ⟨[["a", "b"]], [[some "t", some "u"]],
         some [[some [("n", .s "A")], Option.none]], [[0, 2]]⟩) "q" 5 Option.none).length
      = 2 ∧
    (query E0 (fun _ _ _ =>
        ⟨[["a", "b"]], [[some "t", some "u"]],
         some [[some [("n", .s "A")], Option.none]], [[0, 2]]⟩) "q" 5 Option.none).length
      ≤ 5 ∧
    (query E0 (fun _ _ _ =>
        ⟨[["a", "b"]], [[some "t", some "u"]],
         some [[some [("n", .s "A")], Option.none]], [[0, 2]]⟩) "q" 5 Option.none).map
        (fun x => x.id) = ["a", "b"] ∧
    (query E0 (fun _ _ _ =>
        ⟨[["a", "b"]], [[some "t", some "u"]],
         some [[some [("n", .s "A")], Option.none]], [[0, 2]]⟩) "q" 5 Option.none).map
        (fun x => x.text) = [some "t", some "u"] ∧
    (query E0 (fun _ _ _ =>
        ⟨[["a", "b"]], [[some "t", some "u"]],
         some [[some [("n", .s "A")], Option.none]], [[0, 2]]⟩) "q" 5 Option.none).map
        (fun x => x.distance) = [0, 2] ∧
    (query E0 (fun _ _ _ =>
        ⟨[["a", "b"]], [[some "t", some "u"]],
         some [[some [("n", .s "A")], Option.none]], [[0, 2]]⟩) "q" 5 Option.none).map
        (fun x => x.metadata) = [some [("n", .s "A")], Option.none] :=
  claimC7_amended E0
    (fun _ _ _ =>
      ⟨[["a", "b"]], [[some "t", some "u"]],
       some [[some [("n", .s "A")], Option.none]], [[0, 2]]⟩) "q" 5 Option.none
    ["a", "b"] [some "t", some "u"] (some [some [("n", .s "A")], Option.none]) [0, 2]
    rfl rfl rfl (fun l h => by cases h; rfl) (by decide)

/-- C10 witness: the theorem at concrete inputs. -/
theorem claimC10_witness :
    insert E0 db0 (.str "t") (.dict []) (.str "a")
      = insert E0 db0 (.str "t") .none (.str "a") ∧
    update E0 db0 (some "z") (some "u") (some [])
      = update E0 db0 (some "z") (some "u") Option.none ∧
    get (insert E0 db0 (.str "t") (.dict []) (.str "a")).2 "a"
      = .ok ⟨"a", some "t", Option.none⟩ :=
  ⟨claimC10.1 E0 db0 (.str "t") (.str "a"),
   claimC10.2.1 E0 db0 (some "z") (some "u"),
   claimC10.2.2 E0 db0 "t" "a" (by decide)⟩

end LocalSemanticDB
